import Mathlib

/-!
Shallow embedding of the help subsystem of `irc/help.go` (package `irc`):
the topic registry (`Help`), the index generator (`GenerateHelpIndex`),
the response framer (`sendHelp`) and the query resolver (`helpHandler`).

Go strings are modelled as Lean `String` (a sequence of characters); all
registry data is ASCII, where Go byte ordering and codepoint ordering
agree.  The Go string-library functions used by the source
(`strings.Split`, `strings.Join`, `strings.TrimSpace`, `strings.ToLower`,
`strings.ToUpper`, `sort.Strings`) are embedded below as structurally
recursive functions on the underlying character lists, so that every
definition evaluates inside the kernel.

The Go `map[string]HelpEntry` is modelled as an association list in source
order; a map iteration enumerates its entries in an arbitrary order, which
the embedding captures by quantifying over permutations of that list.
Outbound replies (`client.Send(nil, server.name, CODE, args...)`) are
modelled as values of type `OutboundLine` collected in emission order.
-/

/-- Lexicographic comparison of character sequences: the ascending string
order used by Go `sort.Strings` (byte order; data here is ASCII, where
byte order and codepoint order coincide). -/
def lexLe : List Char → List Char → Bool
  | [], _ => true
  | _ :: _, [] => false
  | a :: as, b :: bs => if a = b then lexLe as bs else decide (a < b)

/-- Comparison of strings, embedding Go string `<=`. -/
def strLe (s t : String) : Bool := lexLe s.data t.data

/-- Propositional form of `strLe`; the sorting relation for index sections. -/
def strLeRel (s t : String) : Prop := strLe s t = true

instance : DecidableRel strLeRel := fun s t => Bool.decEq (strLe s t) true

/-- Embedding of Go `unicode.IsSpace` (the characters trimmed by
`strings.TrimSpace`). -/
def isSpaceChar (c : Char) : Bool :=
  [9, 10, 11, 12, 13, 32, 0x85, 0xA0, 0x1680, 0x2000, 0x2001, 0x2002, 0x2003,
    0x2004, 0x2005, 0x2006, 0x2007, 0x2008, 0x2009, 0x200A, 0x2028, 0x2029,
    0x202F, 0x205F, 0x3000].contains c.toNat

/-- Embedding of Go `strings.TrimSpace`: drop leading and trailing
whitespace. -/
def strTrimSpace (s : String) : String :=
  ⟨((s.data.dropWhile isSpaceChar).reverse.dropWhile isSpaceChar).reverse⟩

/-- ASCII lower-casing of one character, the fragment of Go
`unicode.ToLower` exercised by the ASCII registry keys. -/
def toLowerChar (c : Char) : Char :=
  if 'A' ≤ c ∧ c ≤ 'Z' then Char.ofNat (c.toNat + 32) else c

/-- ASCII upper-casing of one character, the fragment of Go
`unicode.ToUpper` exercised by the ASCII topic names. -/
def toUpperChar (c : Char) : Char :=
  if 'a' ≤ c ∧ c ≤ 'z' then Char.ofNat (c.toNat - 32) else c

/-- Embedding of Go `strings.ToLower`. -/
def strToLower (s : String) : String := ⟨s.data.map toLowerChar⟩

/-- Embedding of Go `strings.ToUpper`. -/
def strToUpper (s : String) : String := ⟨s.data.map toUpperChar⟩

/-- Splitting a character list at every occurrence of a separator
character; the result always has at least one (possibly empty) group. -/
def splitOnChar (sep : Char) : List Char → List (List Char)
  | [] => [[]]
  | c :: rest =>
    match splitOnChar sep rest with
    | [] => [[]]
    | grp :: groups =>
      if c = sep then [] :: grp :: groups else (c :: grp) :: groups

/-- Embedding of Go `strings.Split` with a one-character separator (the
source only splits on `" "` and `"\n"`). -/
def strSplit (s : String) (sep : Char) : List String :=
  (splitOnChar sep s.data).map (fun l => ⟨l⟩)

/-- Embedding of Go `strings.Join`. -/
def joinSep (sep : String) : List String → String
  | [] => ""
  | [s] => s
  | s :: rest => s ++ sep ++ joinSep sep rest

/-- HelpEntryType represents the different sorts of help entries that can
exist (`CommandHelpEntry`, `InformationHelpEntry`, `ISupportHelpEntry`). -/
inductive HelpEntryType
  | CommandHelpEntry
  | InformationHelpEntry
  | ISupportHelpEntry
deriving DecidableEq

export HelpEntryType (CommandHelpEntry InformationHelpEntry ISupportHelpEntry)

/-- HelpEntry represents an entry in the Help map.  Field defaults mirror
the Go zero values (`false`, `CommandHelpEntry = 0`). -/
structure HelpEntry where
  oper : Bool := false
  text : String
  helpType : HelpEntryType := CommandHelpEntry
  duplicate : Bool := false
deriving DecidableEq

/-- Channel-modes help text shared by the `modes`, `cmode` and `cmodes`
entries (Go `cmodeHelpText`). -/
def cmodeHelpText : String :=
  "== Channel Modes ==

Oragono supports the following channel modes:

  +b  |  Client masks that are banned from the channel (e.g. *!*@127.0.0.1)
  +e  |  Client masks that are exempted from bans.
  +I  |  Client masks that are exempted from the invite-only flag.
  +i  |  Invite-only mode, only invited clients can join the channel.
  +k  |  Key required when joining the channel.
  +l  |  Client join limit for the channel.
  +m  |  Moderated mode, only privileged clients can talk on the channel.
  +n  |  No-outside-messages mode, only users that are on the channel can send
      |  messages to it.
  +r  |  Only registered users can talk in the channel.
  +s  |  Secret mode, channel won\x27t show up in /LIST or whois replies.
  +t  |  Only channel opers can modify the topic.

= Prefixes =

  +q (~)  |  Founder channel mode.
  +a (&)  |  Admin channel mode.
  +o (@)  |  Operator channel mode.
  +h (%)  |  Halfop channel mode.
  +v (+)  |  Voice channel mode."

/-- User-modes help text shared by the `modes`, `umode` and `umodes`
entries (Go `umodeHelpText`). -/
def umodeHelpText : String :=
  "== User Modes ==

Oragono supports the following user modes:

  +a  |  User is marked as being away. This mode is set with the /AWAY command.
  +i  |  User is marked as invisible (their channels are hidden from whois replies).
  +o  |  User is an IRC operator.
  +s  |  Server Notice Masks (see help with /HELPOP snomasks).
  +Z  |  User is connected via TLS."

/-- Server-notice-mask help text shared by the `snomask` and `snomasks`
entries (Go `snomaskHelpText`). -/
def snomaskHelpText : String :=
  "== Server Notice Masks ==

Oragono supports the following server notice masks for operators:

  a  |  Local announcements.
  c  |  Local client connections.
  j  |  Local channel actions.
  k  |  Local kills.
  n  |  Local nick changes.
  o  |  Local oper actions.
  q  |  Local quits.
  t  |  Local /STATS usage.
  u  |  Local client account actions.
  x  |  Local X-lines (DLINE/KLINE/etc).

To set a snomask, do this with your nickname:

  /MODE <nick> +s <chars>

For instance, this would set the kill, oper, account and xline snomasks on dan:

  /MODE dan +s koux"

/-- Help contains the help strings distributed with the IRCd: the Go
`map[string]HelpEntry` literal, embedded as an association list in source
order.  Braces, apostrophes and double quotes from the Go raw strings are
written with escapes; `\t` renders the literal tabs of the Go source. -/
def Help : List (String × HelpEntry) := [
  ("acc", { text :=
    "ACC REGISTER <accountname> [callback_namespace:]<callback> [cred_type] :<credential>
ACC VERIFY <accountname> <auth_code>

Used in account registration. See the relevant specs for more info:
http://oragono.io/specs.html" }),
  ("ambiance", { text :=
    "AMBIANCE <target> <text to be sent>

The AMBIANCE command is used to send a scene notification to the given target." }),
  ("authenticate", { text :=
    "AUTHENTICATE

Used during SASL authentication. See the IRCv3 specs for more info:
http://ircv3.net/specs/extensions/sasl-3.1.html" }),
  ("away", { text :=
    "AWAY [message]

If [message] is sent, marks you away. If [message] is not sent, marks you no
longer away." }),
  ("cap", { text :=
    "CAP <subcommand> [:<capabilities>]

Used in capability negotiation. See the IRCv3 specs for more info:
http://ircv3.net/specs/core/capability-negotiation-3.1.html
http://ircv3.net/specs/core/capability-negotiation-3.2.html" }),
  ("chanserv", { text :=
    "CHANSERV <subcommand> [params]

ChanServ controls channel registrations." }),
  ("cs", { text :=
    "CS <subcommand> [params]

ChanServ controls channel registrations." }),
  ("debug", { oper := true, text :=
    "DEBUG <option>

Prints debug information about the IRCd. <option> can be one of:

* GCSTATS: Garbage control statistics.
* NUMGOROUTINE: Number of goroutines in use.
* STARTCPUPROFILE: Starts the CPU profiler.
* STOPCPUPROFILE: Stops the CPU profiler.
* PROFILEHEAP: Writes out the CPU profiler info." }),
  ("dline", { oper := true, text :=
    "DLINE [ANDKILL] [MYSELF] [duration] <ip>/<net> [ON <server>] [reason [| oper reason]]

Bans an IP address or network from connecting to the server. If the duration is
given then only for that long. The reason is shown to the user themselves, but
everyone else will see a standard message. The oper reason is shown to
operators getting info about the DLINEs that exist.

Bans are saved across subsequent launches of the server.

\"ANDKILL\" means that all matching clients are also removed from the server.

\"MYSELF\" is required when the DLINE matches the address the person applying it is connected
from. If \"MYSELF\" is not given, trying to DLINE yourself will result in an error.

[duration] can be of the following forms:
\t1y 12mo 31d 10h 8m 13s

<net> is specified in typical CIDR notation. For example:
\t127.0.0.1/8
\t8.8.8.8/24

ON <server> specifies that the ban is to be set on that specific server.

[reason] and [oper reason], if they exist, are separated by a vertical bar (|)." }),
  ("help", { text :=
    "HELP <argument>

Get an explanation of <argument>, or \"index\" for a list of help topics." }),
  ("helpop", { text :=
    "HELPOP <argument>

Get an explanation of <argument>, or \"index\" for a list of help topics." }),
  ("invite", { text :=
    "INVITE <nickname> <channel>

Invites the given user to the given channel, so long as you have the
appropriate channel privs." }),
  ("ison", { text :=
    "ISON <nickname>\x7b <nickname>\x7d

Returns whether the given nicks exist on the network." }),
  ("join", { text :=
    "JOIN <channel>\x7b,<channel>\x7d [<key>\x7b,<key>\x7d]

Joins the given channels with the matching keys." }),
  ("kick", { text :=
    "KICK <channel> <user> [reason]

Removes the user from the given channel, so long as you have the appropriate
channel privs." }),
  ("kill", { oper := true, text :=
    "KILL <nickname> [reason]

Removes the given user from the network, showing them the reason if it is
supplied." }),
  ("kline", { oper := true, text :=
    "KLINE [ANDKILL] [MYSELF] [duration] <mask> [ON <server>] [reason [| oper reason]]

Bans a mask from connecting to the server. If the duration is given then only for that
long. The reason is shown to the user themselves, but everyone else will see a standard
message. The oper reason is shown to operators getting info about the KLINEs that exist.

Bans are saved across subsequent launches of the server.

\"ANDKILL\" means that all matching clients are also removed from the server.

\"MYSELF\" is required when the KLINE matches the address the person applying it is connected
from. If \"MYSELF\" is not given, trying to KLINE yourself will result in an error.

[duration] can be of the following forms:
\t1y 12mo 31d 10h 8m 13s

<mask> is specified in typical IRC format. For example:
\tdan
\tdan!5*@127.*

ON <server> specifies that the ban is to be set on that specific server.

[reason] and [oper reason], if they exist, are separated by a vertical bar (|)." }),
  ("list", { text :=
    "LIST [<channel>\x7b,<channel>\x7d] [<elistcond>\x7b,<elistcond>\x7d]

Shows information on the given channels (or if none are given, then on all
channels). <elistcond>s modify how the channels are selected." }),
  ("lusers", { text :=
    "LUSERS [<mask> [<server>]]

Shows statistics about the size of the network. If <mask> is given, only
returns stats for servers matching the given mask.  If <server> is given, the
command is processed by that server." }),
  ("mode", { text :=
    "MODE <target> [<modestring> [<mode arguments>...]]

Sets and removes modes from the given target. For more specific information on
mode characters, see the help for \"modes\"." }),
  ("monitor", { text :=
    "MONITOR <subcmd>

Allows the monitoring of nicknames, for alerts when they are online and
offline. The subcommands are:

    MONITOR + target\x7b,target\x7d
Adds the given names to your list of monitored nicknames.

    MONITOR - target\x7b,target\x7d
Removes the given names from your list of monitored nicknames.

    MONITOR C
Clears your list of monitored nicknames.

    MONITOR L
Lists all the nicknames you are currently monitoring.

    MONITOR S
Lists whether each nick in your MONITOR list is online or offline." }),
  ("motd", { text :=
    "MOTD [server]

Returns the message of the day for this, or the given, server." }),
  ("names", { text :=
    "NAMES [<channel>\x7b,<channel>\x7d]

Views the clients joined to a channel and their channel membership prefixes. To
view the channel membership prefixes supported by this server, see the help for
\"PREFIX\"." }),
  ("nick", { text :=
    "NICK <newnick>

Sets your nickname to the new given one." }),
  ("nickserv", { text :=
    "NICKSERV <subcommand> [params]

NickServ controls accounts and user registrations." }),
  ("notice", { text :=
    "NOTICE <target>\x7b,<target>\x7d <text to be sent>

Sends the text to the given targets as a NOTICE." }),
  ("npc", { text :=
    "NPC <target> <sourcenick> <text to be sent>
\t\t
The NPC command is used to send a message to the target as the source.

Requires the roleplay mode (+E) to be set on the target." }),
  ("npca", { text :=
    "NPCA <target> <sourcenick> <text to be sent>
\t\t
The NPC command is used to send an action to the target as the source.

Requires the roleplay mode (+E) to be set on the target." }),
  ("ns", { text :=
    "NS <subcommand> [params]

NickServ controls accounts and user registrations." }),
  ("oper", { text :=
    "OPER <name> <password>

If the correct details are given, gives you IRCop privs." }),
  ("part", { text :=
    "PART <channel>\x7b,<channel>\x7d [reason]

Leaves the given channels and shows people the given reason." }),
  ("pass", { text :=
    "PASS <password>

When the server requires a connection password to join, used to send us the
password." }),
  ("ping", { text :=
    "PING <args>...

Requests a PONG. Used to check link connectivity." }),
  ("pong", { text :=
    "PONG <args>...

Replies to a PING. Used to check link connectivity." }),
  ("privmsg", { text :=
    "PRIVMSG <target>\x7b,<target>\x7d <text to be sent>

Sends the text to the given targets as a PRIVMSG." }),
  ("rename", { text :=
    "RENAME <channel> <newname> [<reason>]

Renames the given channel with the given reason, if possible.

For example:
\tRENAME #ircv2 #ircv3 :Protocol upgrades!" }),
  ("sanick", { oper := true, text :=
    "SANICK <currentnick> <newnick>

Gives the given user a new nickname." }),
  ("samode", { oper := true, text :=
    "SAMODE <target> [<modestring> [<mode arguments>...]]

Forcibly sets and removes modes from the given target -- only available to
opers. For more specific information on mode characters, see the help for
\"cmode\" and \"umode\"." }),
  ("scene", { text :=
    "SCENE <target> <text to be sent>

The SCENE command is used to send a scene notification to the given target." }),
  ("tagmsg", { text :=
    "@+client-only-tags TAGMSG <target>\x7b,<target>\x7d

Sends the given client-only tags to the given targets as a TAGMSG. See the IRCv3
specs for more info: http://ircv3.net/specs/core/message-tags-3.3.html" }),
  ("quit", { text :=
    "QUIT [reason]

Indicates that you\x27re leaving the server, and shows everyone the given reason." }),
  ("rehash", { oper := true, text :=
    "REHASH

Reloads the config file and updates TLS certificates on listeners" }),
  ("time", { text :=
    "TIME [server]

Shows the time of the current, or the given, server." }),
  ("topic", { text :=
    "TOPIC <channel> [topic]

If [topic] is given, sets the topic in the channel to that. If [topic] is not
given, views the current topic on the channel." }),
  ("undline", { oper := true, text :=
    "UNDLINE <ip>/<net>

Removes an existing ban on an IP address or a network.

<net> is specified in typical CIDR notation. For example:
\t127.0.0.1/8
\t8.8.8.8/24" }),
  ("unkline", { oper := true, text :=
    "UNKLINE <mask>

Removes an existing ban on a mask.

For example:
\tdan
\tdan!5*@127.*" }),
  ("user", { text :=
    "USER <username> 0 * <realname>

Used in connection registration, sets your username and realname to the given
values (though your username may also be looked up with Ident)." }),
  ("userhost", { text :=
    "USERHOST <nickname>\x7b <nickname>\x7d
\t\t
Shows information about the given users. Takes up to 10 nicknames." }),
  ("version", { text :=
    "VERSION [server]

Views the version of software and the RPL_ISUPPORT tokens for the given server." }),
  ("who", { text :=
    "WHO <name> [o]

Returns information for the given user." }),
  ("whois", { text :=
    "WHOIS <client>\x7b,<client>\x7d

Returns information for the given user(s)." }),
  ("whowas", { text :=
    "WHOWAS <nickname>

Returns historical information on the last user with the given nickname." }),
  ("modes", { text := cmodeHelpText ++ "\n\n" ++ umodeHelpText, helpType := InformationHelpEntry }),
  ("cmode", { text := cmodeHelpText, helpType := InformationHelpEntry }),
  ("cmodes", { text := cmodeHelpText, helpType := InformationHelpEntry, duplicate := true }),
  ("umode", { text := umodeHelpText, helpType := InformationHelpEntry }),
  ("umodes", { text := umodeHelpText, helpType := InformationHelpEntry, duplicate := true }),
  ("snomask", { text := snomaskHelpText, helpType := InformationHelpEntry, oper := true, duplicate := true }),
  ("snomasks", { text := snomaskHelpText, helpType := InformationHelpEntry, oper := true }),
  ("casemapping", { helpType := ISupportHelpEntry, text :=
    "RPL_ISUPPORT CASEMAPPING

Oragono supports an experimental unicode casemapping designed for extended
Unicode support. This casemapping is based off RFC 7613 and the draft rfc7613
casemapping spec here: http://oragono.io/specs.html" }),
  ("prefix", { helpType := ISupportHelpEntry, text :=
    "RPL_ISUPPORT PREFIX

Oragono supports the following channel membership prefixes:

  +q (~)  |  Founder channel mode.
  +a (&)  |  Admin channel mode.
  +o (@)  |  Operator channel mode.
  +h (%)  |  Halfop channel mode.
  +v (+)  |  Voice channel mode." })]

/-- Rendering of one index line, Go `fmt.Sprintf("   %s", name)`. -/
def indexLine (name : String) : String := "   " ++ name

/-- Embedding of Go `sort.Strings`: sort ascending by `strLeRel`. -/
def sortStrings (l : List String) : List String := l.insertionSort strLeRel

/-- One bucket of the index-generation loop of `GenerateHelpIndex`: the
lines collected for category `cat`, in registry iteration order, after the
`duplicate` and `oper && !forOpers` skips. -/
def indexBucket (forOpers : Bool) (cat : HelpEntryType)
    (registry : List (String × HelpEntry)) : List String :=
  registry.filterMap fun p =>
    if p.2.duplicate then none
    else if p.2.oper && !forOpers then none
    else if p.2.helpType = cat then some (indexLine p.1) else none

/-- GenerateHelpIndex is used to generate HelpIndex: the template
`"= Help Topics =\n\nCommands:\n%s\n\nRPL_ISUPPORT Tokens:\n%s\n\nInformation:\n%s"`
with the three sorted buckets joined by newlines substituted in. -/
def GenerateHelpIndex (registry : List (String × HelpEntry)) (forOpers : Bool) : String :=
  "= Help Topics =\n\nCommands:\n" ++
    joinSep "\n" (sortStrings (indexBucket forOpers CommandHelpEntry registry)) ++
  "\n\nRPL_ISUPPORT Tokens:\n" ++
    joinSep "\n" (sortStrings (indexBucket forOpers ISupportHelpEntry registry)) ++
  "\n\nInformation:\n" ++
    joinSep "\n" (sortStrings (indexBucket forOpers InformationHelpEntry registry))

/-- All topic lines substituted into the generated index, in the order the
three sections render them. -/
def indexAllLines (registry : List (String × HelpEntry)) (forOpers : Bool) : List String :=
  sortStrings (indexBucket forOpers CommandHelpEntry registry) ++
  sortStrings (indexBucket forOpers ISupportHelpEntry registry) ++
  sortStrings (indexBucket forOpers InformationHelpEntry registry)

/-- Reply codes used by the help subsystem (their numeric wire values are
defined in the surrounding package, outside this excerpt). -/
inductive ReplyCode
  | RPL_HELPSTART
  | RPL_HELPTXT
  | RPL_ENDOFHELP
  | ERR_HELPNOTFOUND
deriving DecidableEq

/-- One outbound reply line handed to the client sink:
`client.Send(nil, source, code, args...)`. -/
structure OutboundLine where
  source : String
  code : ReplyCode
  args : List String
deriving DecidableEq

/-- Body of the loop in `sendHelp`: one line per text line, carrying the
split topic name plus that line; the line at index 0 uses `RPL_HELPSTART`
and every later one uses `RPL_HELPTXT`. -/
def sendHelpBodyLines (serverName : String) (splitName : List String) :
    Nat → List String → List OutboundLine
  | _, [] => []
  | i, line :: rest =>
    { source := serverName,
      code := if i = 0 then ReplyCode.RPL_HELPSTART else ReplyCode.RPL_HELPTXT,
      args := splitName ++ [line] } ::
      sendHelpBodyLines serverName splitName (i + 1) rest

/-- sendHelp sends the client help of the given string: the framer.  It
splits the name on spaces and the text on newlines, emits the loop lines,
then one `RPL_ENDOFHELP` line carrying `"End of /HELPOP"`. -/
def sendHelp (serverName name text : String) : List OutboundLine :=
  let splitName := strSplit name ' '
  let textLines := strSplit text '\n'
  sendHelpBodyLines serverName splitName 0 textLines ++
    [{ source := serverName, code := ReplyCode.RPL_ENDOFHELP,
       args := splitName ++ ["End of /HELPOP"] }]

/-- Lookup in the registry association list: the embedding of the Go map
read `Help[argument]`. -/
def lookupHelp : List (String × HelpEntry) → String → Option HelpEntry
  | [], _ => none
  | p :: rest, name => if p.1 = name then some p.2 else lookupHelp rest name

/-- Key uniqueness of an association list, the defining property of the Go
map being modelled. -/
def keysUnique : List (String × HelpEntry) → Bool
  | [] => true
  | p :: rest => !(rest.any fun q => decide (q.1 = p.1)) && keysUnique rest

/-- Query normalization of `helpHandler`:
`strings.ToLower(strings.TrimSpace(strings.Join(msg.Params, " ")))`. -/
def normQuery (params : List String) : String :=
  strToLower (strTrimSpace (joinSep " " params))

/-- Usage text sent by `helpHandler` for an empty query (the literal in
the source; it equals the `helpop` entry text). -/
def helpopUsageText : String :=
  "HELPOP <argument>

Get an explanation of <argument>, or \"index\" for a list of help topics."

/-- HelpIndex contains the list of all help topics for regular users.
Modelled from the spec: the `var HelpIndex` of the source is a package
global whose value is assigned by server initialization code outside this
excerpt; per the spec (and the doc comment of `GenerateHelpIndex`) it
holds the general index, `GenerateHelpIndex` with `forOpers = false`. -/
def HelpIndex : String := GenerateHelpIndex Help false

/-- HelpIndexOpers contains the list of all help topics for opers.
Modelled from the spec: assigned outside this excerpt, holding the
operator index, `GenerateHelpIndex` with `forOpers = true`. -/
def HelpIndexOpers : String := GenerateHelpIndex Help true

/-- helpHandler returns the appropriate help for the given query: the
query resolver.  `registry` stands for the package-global `Help` map;
`isOper` is `client.flags[Operator]`; the returned list is the sequence of
outbound lines emitted via `client.Send`. -/
def helpHandler (serverName : String) (registry : List (String × HelpEntry))
    (isOper : Bool) (params : List String) : List OutboundLine :=
  let argument := normQuery params
  if argument.data.length < 1 then
    sendHelp serverName "HELPOP" helpopUsageText
  else if argument = "index" then
    if isOper then
      sendHelp serverName "HELP" HelpIndexOpers
    else
      sendHelp serverName "HELP" HelpIndex
  else
    match lookupHelp registry argument with
    | some entry =>
      if !entry.oper || (entry.oper && isOper) then
        sendHelp serverName (strToUpper argument) entry.text
      else
        [{ source := serverName, code := ReplyCode.ERR_HELPNOTFOUND,
           args := params ++ ["Help not found"] }]
    | none =>
      [{ source := serverName, code := ReplyCode.ERR_HELPNOTFOUND,
         args := params ++ ["Help not found"] }]

theorem lexLe_total : ∀ as bs : List Char, lexLe as bs = true ∨ lexLe bs as = true := by
  intro as
  induction as with
  | nil => intro bs; left; rfl
  | cons a as ih =>
    intro bs
    cases bs with
    | nil => right; rfl
    | cons b bs =>
      by_cases hab : a = b
      · subst hab
        rcases ih bs with h | h
        · left; simp [lexLe, h]
        · right; simp [lexLe, h]
      · rcases lt_or_gt_of_ne hab with h | h
        · left; simp [lexLe, hab, h]
        · right
          have hba : b ≠ a := fun e => hab e.symm
          simp [lexLe, hba, h]

theorem lexLe_trans : ∀ as bs cs : List Char,
    lexLe as bs = true → lexLe bs cs = true → lexLe as cs = true := by
  intro as
  induction as with
  | nil => intro bs cs h1 h2; rfl
  | cons a as ih =>
    intro bs cs h1 h2
    cases bs with
    | nil => simp [lexLe] at h1
    | cons b bs =>
      cases cs with
      | nil => simp [lexLe] at h2
      | cons c cs =>
        by_cases hab : a = b
        · subst hab
          by_cases hac : a = c
          · subst hac
            simp [lexLe] at h1 h2 ⊢
            exact ih bs cs h1 h2
          · simp [lexLe, hac] at h2 ⊢
            exact h2
        · by_cases hbc : b = c
          · subst hbc
            simp [lexLe, hab] at h1 ⊢
            exact h1
          · simp [lexLe, hab] at h1
            simp [lexLe, hbc] at h2
            have hac : a < c := lt_trans h1 h2
            simp [lexLe, ne_of_lt hac]
            exact hac

theorem lexLe_antisymm : ∀ as bs : List Char,
    lexLe as bs = true → lexLe bs as = true → as = bs := by
  intro as
  induction as with
  | nil =>
    intro bs h1 h2
    cases bs with
    | nil => rfl
    | cons b bs => simp [lexLe] at h2
  | cons a as ih =>
    intro bs h1 h2
    cases bs with
    | nil => simp [lexLe] at h1
    | cons b bs =>
      by_cases hab : a = b
      · subst hab
        simp [lexLe] at h1 h2
        rw [ih bs h1 h2]
      · exfalso
        have hba : b ≠ a := fun e => hab e.symm
        simp [lexLe, hab] at h1
        simp [lexLe, hba] at h2
        exact absurd h2 (lt_asymm h1)

theorem strLeRel_total : IsTotal String strLeRel :=
  ⟨fun s t => lexLe_total s.data t.data⟩

theorem strLeRel_trans : IsTrans String strLeRel :=
  ⟨fun s t u => lexLe_trans s.data t.data u.data⟩

theorem strLeRel_antisymm : IsAntisymm String strLeRel :=
  ⟨fun s t h1 h2 => String.ext (lexLe_antisymm s.data t.data h1 h2)⟩

theorem sortStrings_perm (l : List String) : (sortStrings l).Perm l :=
  List.perm_insertionSort strLeRel l

theorem sortStrings_sorted (l : List String) : (sortStrings l).Sorted strLeRel :=
  @List.sorted_insertionSort String strLeRel _ strLeRel_total strLeRel_trans l

theorem sortStrings_eq_of_perm {l₁ l₂ : List String} (h : l₁.Perm l₂) :
    sortStrings l₁ = sortStrings l₂ :=
  @List.eq_of_perm_of_sorted String strLeRel strLeRel_antisymm _ _
    ((sortStrings_perm l₁).trans (h.trans (sortStrings_perm l₂).symm))
    (sortStrings_sorted l₁) (sortStrings_sorted l₂)

theorem mem_sortStrings {a : String} {l : List String} : a ∈ sortStrings l ↔ a ∈ l :=
  (sortStrings_perm l).mem_iff

theorem count_sortStrings (a : String) (l : List String) :
    (sortStrings l).count a = l.count a :=
  (sortStrings_perm l).count_eq a

theorem sendHelpBodyLines_of_ne_zero (serverName : String) (splitName : List String) :
    ∀ (rest : List String) (i : Nat), i ≠ 0 →
      sendHelpBodyLines serverName splitName i rest =
        rest.map fun line =>
          { source := serverName, code := ReplyCode.RPL_HELPTXT,
            args := splitName ++ [line] } := by
  intro rest
  induction rest with
  | nil => intro i h; rfl
  | cons line rest ih =>
    intro i h
    simp [sendHelpBodyLines, h, ih (i + 1) (Nat.succ_ne_zero i)]

theorem sendHelpBodyLines_no_end (serverName : String) (splitName : List String) :
    ∀ (rest : List String) (i : Nat),
      ((sendHelpBodyLines serverName splitName i rest).map OutboundLine.code).count
        ReplyCode.RPL_ENDOFHELP = 0 := by
  intro rest
  induction rest with
  | nil => intro i; rfl
  | cons line rest ih =>
    intro i
    by_cases hi : i = 0
    · subst hi
      simp [sendHelpBodyLines, List.count_cons, ih 1]
    · simp [sendHelpBodyLines, hi, List.count_cons, ih (i + 1)]

theorem sendHelpBodyLines_length (serverName : String) (splitName : List String) :
    ∀ (rest : List String) (i : Nat),
      (sendHelpBodyLines serverName splitName i rest).length = rest.length := by
  intro rest
  induction rest with
  | nil => intro i; rfl
  | cons line rest ih =>
    intro i
    simp [sendHelpBodyLines, ih (i + 1)]

theorem lookupHelp_eq_of_mem :
    ∀ l : List (String × HelpEntry), keysUnique l = true →
      ∀ {k : String} {v : HelpEntry}, (k, v) ∈ l → lookupHelp l k = some v := by
  intro l
  induction l with
  | nil => intro _ k v h; cases h
  | cons p rest ih =>
    intro hu k v hmem
    have hu2 : (rest.any fun q => decide (q.1 = p.1)) = false ∧ keysUnique rest = true := by
      simpa [keysUnique, Bool.and_eq_true, Bool.not_eq_true'] using hu
    rcases List.mem_cons.mp hmem with heq | hrest
    · cases heq
      simp [lookupHelp]
    · by_cases hk : p.1 = k
      · exfalso
        have h2 : (rest.any fun q => decide (q.1 = p.1)) = true :=
          List.any_eq_true.mpr ⟨(k, v), hrest, by simp [hk]⟩
        rw [hu2.1] at h2
        exact Bool.false_ne_true h2
      · rw [lookupHelp, if_neg hk]
        exact ih hu2.2 hrest

theorem not_short_of_ne_empty (s : String) (h : s ≠ "") : ¬ s.data.length < 1 := by
  cases s with
  | mk data =>
    cases data with
    | nil => exact absurd rfl h
    | cons c cs => simp

theorem helpHandler_of_found (server : String) (registry : List (String × HelpEntry))
    (isOper : Bool) (params : List String) (e : HelpEntry)
    (hne : normQuery params ≠ "") (hni : normQuery params ≠ "index")
    (hlook : lookupHelp registry (normQuery params) = some e)
    (hgate : (!e.oper || (e.oper && isOper)) = true) :
    helpHandler server registry isOper params =
      sendHelp server (strToUpper (normQuery params)) e.text := by
  unfold helpHandler
  rw [if_neg (not_short_of_ne_empty _ hne), if_neg hni, hlook]
  simp [hgate]

theorem helpHandler_of_gate_closed (server : String) (registry : List (String × HelpEntry))
    (isOper : Bool) (params : List String) (e : HelpEntry)
    (hne : normQuery params ≠ "") (hni : normQuery params ≠ "index")
    (hlook : lookupHelp registry (normQuery params) = some e)
    (hgate : (!e.oper || (e.oper && isOper)) = false) :
    helpHandler server registry isOper params =
      [{ source := server, code := ReplyCode.ERR_HELPNOTFOUND,
         args := params ++ ["Help not found"] }] := by
  unfold helpHandler
  rw [if_neg (not_short_of_ne_empty _ hne), if_neg hni, hlook]
  simp [hgate]

theorem helpHandler_of_absent (server : String) (registry : List (String × HelpEntry))
    (isOper : Bool) (params : List String)
    (hne : normQuery params ≠ "") (hni : normQuery params ≠ "index")
    (hlook : lookupHelp registry (normQuery params) = none) :
    helpHandler server registry isOper params =
      [{ source := server, code := ReplyCode.ERR_HELPNOTFOUND,
         args := params ++ ["Help not found"] }] := by
  unfold helpHandler
  rw [if_neg (not_short_of_ne_empty _ hne), if_neg hni, hlook]

theorem help_keysUnique : keysUnique Help = true := by decide

theorem help_names_normalized :
    ∀ p ∈ Help, normQuery [p.1] = p.1 ∧ p.1 ≠ "" ∧ p.1 ≠ "index" := by decide

theorem mem_indexBucket_elim {registry : List (String × HelpEntry)} {b : Bool}
    {cat : HelpEntryType} {line : String} (h : line ∈ indexBucket b cat registry) :
    ∃ p ∈ registry, p.2.duplicate = false ∧ (p.2.oper = false ∨ b = true) ∧
      p.2.helpType = cat ∧ line = indexLine p.1 := by
  obtain ⟨p, hp, hf⟩ := List.mem_filterMap.mp h
  refine ⟨p, hp, ?_⟩
  by_cases hdup : p.2.duplicate = true
  · simp [hdup] at hf
  · by_cases hop : (p.2.oper && !b) = true
    · simp [hdup, hop] at hf
    · by_cases hcat : p.2.helpType = cat
      · simp [hdup, hop, hcat] at hf
        refine ⟨by simpa using hdup, ?_, hcat, hf.symm⟩
        cases hb : b
        · cases ho : p.2.oper
          · exact Or.inl rfl
          · exact absurd (by rw [ho, hb]; rfl) hop
        · exact Or.inr rfl
      · simp [hdup, hop, hcat] at hf

theorem indexBucket_mono {registry : List (String × HelpEntry)}
    {cat : HelpEntryType} {line : String} (h : line ∈ indexBucket false cat registry) :
    line ∈ indexBucket true cat registry := by
  obtain ⟨p, hp, hf⟩ := List.mem_filterMap.mp h
  refine List.mem_filterMap.mpr ⟨p, hp, ?_⟩
  by_cases hdup : p.2.duplicate = true
  · simp [hdup] at hf
  · by_cases hop : p.2.oper = true
    · simp [hdup, hop] at hf
    · simp [hdup, hop] at hf ⊢
      exact hf

theorem indexBucket_count_one :
    ∀ b : Bool, ∀ p ∈ Help, p.2.duplicate = false → (p.2.oper = false ∨ b = true) →
      (indexBucket b p.2.helpType Help).count (indexLine p.1) = 1 := by
  intro b
  cases b <;> decide

theorem alias_not_in_index :
    ∀ b : Bool, ∀ p ∈ Help, p.2.duplicate = true → indexLine p.1 ∉ indexAllLines Help b := by
  intro b
  cases b <;> decide

theorem kill_strictness :
    indexLine "kill" ∈ indexAllLines Help true ∧
    indexLine "kill" ∉ indexAllLines Help false ∧
    (∃ p ∈ Help, p.2.duplicate = false ∧ p.2.oper = true) := by
  refine ⟨by decide, by decide, by decide⟩

/-- C1: for every body whose newline split has k ≥ 1 lines, `sendHelp`
emits exactly k+1 outbound lines in strict order: one `RPL_HELPSTART` line
carrying the first body line, one `RPL_HELPTXT` line per remaining body
line in original order, and one terminating `RPL_ENDOFHELP` line. -/
theorem sendHelp_framing (server name text first : String) (rest : List String)
    (h : strSplit text '\n' = first :: rest) :
    sendHelp server name text =
      { source := server, code := ReplyCode.RPL_HELPSTART,
        args := strSplit name ' ' ++ [first] } ::
      (rest.map fun line =>
        { source := server, code := ReplyCode.RPL_HELPTXT,
          args := strSplit name ' ' ++ [line] }) ++
      [{ source := server, code := ReplyCode.RPL_ENDOFHELP,
         args := strSplit name ' ' ++ ["End of /HELPOP"] }] ∧
    (sendHelp server name text).length = (strSplit text '\n').length + 1 := by
  constructor
  · unfold sendHelp
    rw [h]
    simp [sendHelpBodyLines,
      sendHelpBodyLines_of_ne_zero server (strSplit name ' ') rest 1 one_ne_zero]
  · unfold sendHelp
    simp [sendHelpBodyLines_length]

/-- Witness for C1 at server "srv", topic "AWAY" and the three-line body
"a\nb\nc". -/
theorem sendHelp_framing_witness :
    sendHelp "srv" "AWAY" "a\nb\nc" =
      { source := "srv", code := ReplyCode.RPL_HELPSTART,
        args := strSplit "AWAY" ' ' ++ ["a"] } ::
      (["b", "c"].map fun line =>
        { source := "srv", code := ReplyCode.RPL_HELPTXT,
          args := strSplit "AWAY" ' ' ++ [line] }) ++
      [{ source := "srv", code := ReplyCode.RPL_ENDOFHELP,
         args := strSplit "AWAY" ' ' ++ ["End of /HELPOP"] }] ∧
    (sendHelp "srv" "AWAY" "a\nb\nc").length = (strSplit "a\nb\nc" '\n').length + 1 :=
  sendHelp_framing "srv" "AWAY" "a\nb\nc" "a" ["b", "c"] (by decide)

/-- C2 counterexample: at server "srv", label "TOPIC" and body "line",
the terminating `RPL_ENDOFHELP` line carries "End of /HELPOP", not the
"End of help" payload the claim states. -/
theorem end_line_counterexample :
    (sendHelp "srv" "TOPIC" "line").getLast? =
      some { source := "srv", code := ReplyCode.RPL_ENDOFHELP,
             args := ["TOPIC", "End of /HELPOP"] } ∧
    ¬ (sendHelp "srv" "TOPIC" "line").getLast? =
      some { source := "srv", code := ReplyCode.RPL_ENDOFHELP,
             args := ["TOPIC", "End of help"] } :=
  ⟨by decide, by decide⟩

/-- C2 (amended): for every topic label and body, `sendHelp` emits exactly
one terminating `RPL_ENDOFHELP` line, as its final line, carrying the
space-split topic label followed by the fixed string "End of /HELPOP". -/
theorem end_line_payload (server name text : String) :
    (sendHelp server name text).getLast? =
      some { source := server, code := ReplyCode.RPL_ENDOFHELP,
             args := strSplit name ' ' ++ ["End of /HELPOP"] } ∧
    ((sendHelp server name text).map OutboundLine.code).count ReplyCode.RPL_ENDOFHELP = 1 := by
  constructor
  · unfold sendHelp
    exact List.getLast?_concat _
  · unfold sendHelp
    simp [List.count_append, sendHelpBodyLines_no_end]

/-- C3: for either value of `forOpers`, every non-duplicate entry visible
at that level appears exactly once in the sorted section of its own
category, every section is sorted ascending by `strLeRel`, and every line
of a section comes from a qualifying registry entry of that category. -/
theorem index_section_spec (b : Bool) (name : String) (e : HelpEntry)
    (hmem : (name, e) ∈ Help) (hdup : e.duplicate = false)
    (hvis : e.oper = false ∨ b = true) :
    (sortStrings (indexBucket b e.helpType Help)).count (indexLine name) = 1 ∧
    (∀ cat : HelpEntryType, (sortStrings (indexBucket b cat Help)).Sorted strLeRel) ∧
    (∀ cat : HelpEntryType, ∀ line ∈ sortStrings (indexBucket b cat Help),
      ∃ p ∈ Help, p.2.duplicate = false ∧ (p.2.oper = false ∨ b = true) ∧
        p.2.helpType = cat ∧ line = indexLine p.1) := by
  refine ⟨?_, fun cat => sortStrings_sorted _, fun cat line hl => ?_⟩
  · rw [count_sortStrings]
    exact indexBucket_count_one b (name, e) hmem hdup hvis
  · exact mem_indexBucket_elim (mem_sortStrings.mp hl)

/-- Witness for C3 at `forOpers = false` and the `cs` entry. -/
theorem index_section_spec_witness :
    (sortStrings (indexBucket false
      (HelpEntry.mk false
        "CS <subcommand> [params]\n\nChanServ controls channel registrations."
        CommandHelpEntry false).helpType Help)).count (indexLine "cs") = 1 ∧
    (∀ cat : HelpEntryType, (sortStrings (indexBucket false cat Help)).Sorted strLeRel) ∧
    (∀ cat : HelpEntryType, ∀ line ∈ sortStrings (indexBucket false cat Help),
      ∃ p ∈ Help, p.2.duplicate = false ∧ (p.2.oper = false ∨ false = true) ∧
        p.2.helpType = cat ∧ line = indexLine p.1) :=
  index_section_spec false "cs"
    (HelpEntry.mk false
      "CS <subcommand> [params]\n\nChanServ controls channel registrations."
      CommandHelpEntry false)
    (by decide) rfl (Or.inl rfl)

/-- C4: every line of the general index appears in the operator index
(subset, over any registry), and for the shipped registry the inclusion is
strict: "   kill" is an operator-index line only, and a non-alias
operator-only entry exists. -/
theorem index_names_subset :
    (∀ (registry : List (String × HelpEntry)) (line : String),
      line ∈ indexAllLines registry false → line ∈ indexAllLines registry true) ∧
    indexLine "kill" ∈ indexAllLines Help true ∧
    indexLine "kill" ∉ indexAllLines Help false ∧
    (∃ p ∈ Help, p.2.duplicate = false ∧ p.2.oper = true) := by
  refine ⟨?_, kill_strictness.1, kill_strictness.2.1, kill_strictness.2.2⟩
  intro registry line h
  unfold indexAllLines at h ⊢
  rcases List.mem_append.mp h with h12 | h3
  · rcases List.mem_append.mp h12 with h1 | h2
    · exact List.mem_append.mpr (Or.inl (List.mem_append.mpr
        (Or.inl (mem_sortStrings.mpr (indexBucket_mono (mem_sortStrings.mp h1))))))
    · exact List.mem_append.mpr (Or.inl (List.mem_append.mpr
        (Or.inr (mem_sortStrings.mpr (indexBucket_mono (mem_sortStrings.mp h2))))))
  · exact List.mem_append.mpr
      (Or.inr (mem_sortStrings.mpr (indexBucket_mono (mem_sortStrings.mp h3))))

/-- Witness for C4: the general-index line "   acc" also appears in the
operator index. -/
theorem index_names_subset_witness :
    indexLine "acc" ∈ indexAllLines Help true :=
  index_names_subset.1 Help (indexLine "acc") (by decide)

/-- C5: for every registry entry with `oper = true`, resolving its name as
a non-operator yields exactly one `ERR_HELPNOTFOUND` line echoing the
request arguments plus "Help not found", while resolving it as an operator
yields the framed body of the entry. -/
theorem operator_only_gating (server name : String) (e : HelpEntry)
    (hmem : (name, e) ∈ Help) (hoper : e.oper = true) :
    helpHandler server Help false [name] =
      [{ source := server, code := ReplyCode.ERR_HELPNOTFOUND,
         args := [name] ++ ["Help not found"] }] ∧
    helpHandler server Help true [name] =
      sendHelp server (strToUpper name) e.text := by
  obtain ⟨hnorm, hne0, hni0⟩ := help_names_normalized (name, e) hmem
  have hne : normQuery [name] ≠ "" := by rw [hnorm]; exact hne0
  have hni : normQuery [name] ≠ "index" := by rw [hnorm]; exact hni0
  have hlook : lookupHelp Help (normQuery [name]) = some e := by
    rw [hnorm]
    exact lookupHelp_eq_of_mem Help help_keysUnique hmem
  constructor
  · exact helpHandler_of_gate_closed server Help false [name] e hne hni hlook
      (by rw [hoper]; rfl)
  · have k := helpHandler_of_found server Help true [name] e hne hni hlook
      (by rw [hoper]; rfl)
    rw [hnorm] at k
    exact k

/-- Witness for C5 at the operator-only `kill` entry. -/
theorem operator_only_gating_witness :
    helpHandler "srv" Help false ["kill"] =
      [{ source := "srv", code := ReplyCode.ERR_HELPNOTFOUND,
         args := ["kill"] ++ ["Help not found"] }] ∧
    helpHandler "srv" Help true ["kill"] =
      sendHelp "srv" (strToUpper "kill")
        (HelpEntry.mk true
          "KILL <nickname> [reason]\n\nRemoves the given user from the network, showing them the reason if it is\nsupplied."
          CommandHelpEntry false).text :=
  operator_only_gating "srv" "kill"
    (HelpEntry.mk true
      "KILL <nickname> [reason]\n\nRemoves the given user from the network, showing them the reason if it is\nsupplied."
      CommandHelpEntry false)
    (by decide) rfl

/-- C6 counterexample: the empty query does emit the framer output for the
fixed "HELPOP" usage topic without consulting the registry, but that usage
body splits into three lines, not two; four outbound lines are emitted
where a two-line body would give three. -/
theorem empty_query_counterexample :
    helpHandler "srv" Help false [] = sendHelp "srv" "HELPOP" helpopUsageText ∧
    (strSplit helpopUsageText '\n').length = 3 ∧
    (helpHandler "srv" Help false []).length = 4 ∧
    ¬ (helpHandler "srv" Help false []).length = 2 + 1 :=
  ⟨by decide, by decide, by decide, by decide⟩

/-- C6 (amended): if the normalized query is empty, the resolver emits the
framer output for the fixed built-in usage topic under label "HELPOP",
whose body splits into three lines (two text lines separated by one blank
line), and the result does not depend on the registry. -/
theorem empty_query_usage (server : String) (registry : List (String × HelpEntry))
    (isOper : Bool) (params : List String) (h : normQuery params = "") :
    helpHandler server registry isOper params =
      sendHelp server "HELPOP" helpopUsageText ∧
    (strSplit helpopUsageText '\n').length = 3 ∧
    ∀ registry₂ : List (String × HelpEntry),
      helpHandler server registry₂ isOper params =
        helpHandler server registry isOper params := by
  have hmain : ∀ r : List (String × HelpEntry),
      helpHandler server r isOper params = sendHelp server "HELPOP" helpopUsageText := by
    intro r
    unfold helpHandler
    rw [h]
    rfl
  exact ⟨hmain registry, by decide, fun r₂ => by rw [hmain r₂, hmain registry]⟩

/-- Witness for C6 (amended) at the empty parameter list. -/
theorem empty_query_usage_witness :
    helpHandler "srv" Help true [] = sendHelp "srv" "HELPOP" helpopUsageText ∧
    (strSplit helpopUsageText '\n').length = 3 ∧
    ∀ registry₂ : List (String × HelpEntry),
      helpHandler "srv" registry₂ true [] = helpHandler "srv" Help true [] :=
  empty_query_usage "srv" Help true [] (by decide)

/-- C7: if the normalized query is the literal "index", the resolver emits
under label "HELP" the framed output of `GenerateHelpIndex` invoked with
the caller authorization flag. -/
theorem index_query (server : String) (isOper : Bool) (params : List String)
    (h : normQuery params = "index") :
    helpHandler server Help isOper params =
      sendHelp server "HELP" (GenerateHelpIndex Help isOper) := by
  unfold helpHandler
  rw [h]
  cases isOper
  · rfl
  · rfl

/-- Witness for C7 at the single parameter "index" for a non-operator. -/
theorem index_query_witness :
    helpHandler "srv" Help false ["index"] =
      sendHelp "srv" "HELP" (GenerateHelpIndex Help false) :=
  index_query "srv" false ["index"] (by decide)

theorem indexBucket_perm {l₁ l₂ : List (String × HelpEntry)} (b : Bool)
    (cat : HelpEntryType) (h : l₁.Perm l₂) :
    (indexBucket b cat l₁).Perm (indexBucket b cat l₂) :=
  h.filterMap _

/-- C8: the generated index is invariant under the registry iteration
order; any two enumerations of the same registry (permutations of the
association list) give byte-identical output. -/
theorem index_deterministic (l₁ l₂ : List (String × HelpEntry)) (b : Bool)
    (h : l₁.Perm l₂) : GenerateHelpIndex l₁ b = GenerateHelpIndex l₂ b := by
  unfold GenerateHelpIndex
  rw [sortStrings_eq_of_perm (indexBucket_perm b CommandHelpEntry h),
    sortStrings_eq_of_perm (indexBucket_perm b ISupportHelpEntry h),
    sortStrings_eq_of_perm (indexBucket_perm b InformationHelpEntry h)]

/-- Witness for C8 on a two-entry registry enumerated in both orders. -/
theorem index_deterministic_witness :
    GenerateHelpIndex
      [("alpha", { text := "x" }), ("beta", { text := "y", oper := true })] false =
    GenerateHelpIndex
      [("beta", { text := "y", oper := true }), ("alpha", { text := "x" })] false :=
  index_deterministic _ _ false (List.Perm.swap _ _ _)

/-- C9: for a non-operator with fixed request arguments, the outbound line
emitted when the looked-up entry exists but is operator-only is identical
to the line emitted when the name is absent: one `ERR_HELPNOTFOUND` line
echoing the arguments plus "Help not found". -/
theorem notfound_indistinguishable (server : String)
    (r₁ r₂ : List (String × HelpEntry)) (params : List String) (e : HelpEntry)
    (hne : normQuery params ≠ "") (hni : normQuery params ≠ "index")
    (h₁ : lookupHelp r₁ (normQuery params) = some e) (hoper : e.oper = true)
    (h₂ : lookupHelp r₂ (normQuery params) = none) :
    helpHandler server r₁ false params = helpHandler server r₂ false params ∧
    helpHandler server r₁ false params =
      [{ source := server, code := ReplyCode.ERR_HELPNOTFOUND,
         args := params ++ ["Help not found"] }] := by
  have k₁ := helpHandler_of_gate_closed server r₁ false params e hne hni h₁
    (by rw [hoper]; rfl)
  have k₂ := helpHandler_of_absent server r₂ false params hne hni h₂
  exact ⟨k₁.trans k₂.symm, k₁⟩

/-- Witness for C9: querying "kill" against a registry holding an
operator-only "kill" entry and against an empty registry emits the same
line. -/
theorem notfound_indistinguishable_witness :
    helpHandler "srv" [("kill", HelpEntry.mk true "t" CommandHelpEntry false)]
        false ["kill"] =
      helpHandler "srv" [] false ["kill"] ∧
    helpHandler "srv" [("kill", HelpEntry.mk true "t" CommandHelpEntry false)]
        false ["kill"] =
      [{ source := "srv", code := ReplyCode.ERR_HELPNOTFOUND,
         args := ["kill"] ++ ["Help not found"] }] :=
  notfound_indistinguishable "srv"
    [("kill", HelpEntry.mk true "t" CommandHelpEntry false)] [] ["kill"]
    (HelpEntry.mk true "t" CommandHelpEntry false)
    (by decide) (by decide) (by decide) rfl rfl

set_option maxRecDepth 8192 in
/-- C10: alias (`duplicate = true`) entries never appear in either index,
yet resolving them (subject to the operator gate) frames their own entry
text, which equals the canonical entry text; in particular "cmodes" and
"cmode" frame the same `cmodeHelpText` body under their two labels. -/
theorem alias_behaviour (server : String) (b : Bool) (p : String × HelpEntry)
    (hmem : p ∈ Help) (hdup : p.2.duplicate = true) :
    indexLine p.1 ∉ indexAllLines Help b ∧
    lookupHelp Help p.1 = some p.2 ∧
    helpHandler server Help true [p.1] = sendHelp server (strToUpper p.1) p.2.text ∧
    (p.2.oper = false →
      helpHandler server Help false [p.1] = sendHelp server (strToUpper p.1) p.2.text) ∧
    helpHandler server Help false ["cmodes"] = sendHelp server "CMODES" cmodeHelpText ∧
    helpHandler server Help false ["cmode"] = sendHelp server "CMODE" cmodeHelpText := by
  obtain ⟨hnorm, hne0, hni0⟩ := help_names_normalized p hmem
  have hne : normQuery [p.1] ≠ "" := by rw [hnorm]; exact hne0
  have hni : normQuery [p.1] ≠ "index" := by rw [hnorm]; exact hni0
  have hlook : lookupHelp Help (normQuery [p.1]) = some p.2 := by
    rw [hnorm]
    exact lookupHelp_eq_of_mem Help help_keysUnique hmem
  refine ⟨alias_not_in_index b p hmem hdup,
    lookupHelp_eq_of_mem Help help_keysUnique hmem, ?_, ?_, ?_, ?_⟩
  · have k := helpHandler_of_found server Help true [p.1] p.2 hne hni hlook
      (by cases ho : p.2.oper <;> simp [ho])
    rw [hnorm] at k
    exact k
  · intro hop
    have k := helpHandler_of_found server Help false [p.1] p.2 hne hni hlook
      (by rw [hop]; rfl)
    rw [hnorm] at k
    exact k
  · have k := helpHandler_of_found server Help false ["cmodes"]
      (HelpEntry.mk false cmodeHelpText InformationHelpEntry true)
      (by decide) (by decide) (by decide) rfl
    rw [show normQuery ["cmodes"] = "cmodes" from by decide] at k
    rw [show strToUpper "cmodes" = "CMODES" from by decide] at k
    exact k
  · have k := helpHandler_of_found server Help false ["cmode"]
      (HelpEntry.mk false cmodeHelpText InformationHelpEntry false)
      (by decide) (by decide) (by decide) rfl
    rw [show normQuery ["cmode"] = "cmode" from by decide] at k
    rw [show strToUpper "cmode" = "CMODE" from by decide] at k
    exact k

set_option maxRecDepth 8192 in
/-- Witness for C10 at the alias entry "cmodes" for a non-operator. -/
theorem alias_behaviour_witness :
    indexLine "cmodes" ∉ indexAllLines Help false ∧
    lookupHelp Help "cmodes" =
      some (HelpEntry.mk false cmodeHelpText InformationHelpEntry true) ∧
    helpHandler "srv" Help true ["cmodes"] =
      sendHelp "srv" (strToUpper "cmodes") cmodeHelpText ∧
    ((HelpEntry.mk false cmodeHelpText InformationHelpEntry true).oper = false →
      helpHandler "srv" Help false ["cmodes"] =
        sendHelp "srv" (strToUpper "cmodes") cmodeHelpText) ∧
    helpHandler "srv" Help false ["cmodes"] = sendHelp "srv" "CMODES" cmodeHelpText ∧
    helpHandler "srv" Help false ["cmode"] = sendHelp "srv" "CMODE" cmodeHelpText :=
  alias_behaviour "srv" false
    ("cmodes", HelpEntry.mk false cmodeHelpText InformationHelpEntry true)
    (by decide) rfl
